import Mathlib

/-!
Shallow embedding of the platform-metrics normalization layer of the
funnel-command-center repository: the per-platform connector derivation
logic (Mailchimp, WooCommerce, Google Analytics, Google Ads), the
aggregator fan-out, the connect / sync API routes, and the prompt-context
summarizer.  JavaScript numbers are modelled as rationals, JavaScript
object fields that may be absent as Option, vendor HTTP responses as
already-parsed values handed to the derivation functions, and rejected
promises as Except / Option failure values.
-/

namespace FCC

/-- Model of JavaScript Math.round: round half toward positive infinity. -/
def jsRound (q : ℚ) : ℤ := (q + 1/2).floor

theorem jsRound_eq (q : ℚ) : jsRound q = ⌊q + 1/2⌋ :=
  (Rat.floor_def' _).trans Rat.floor_def.symm

/-- Model of the source pattern Math.round(x * 10^k) / 10^k used by the
connectors to round to k decimal places. -/
def roundTo (k : ℕ) (q : ℚ) : ℚ := (jsRound (q * 10 ^ k) : ℚ) / 10 ^ k

/-- Math.round(x * 100) / 100. -/
def round2 (q : ℚ) : ℚ := roundTo 2 q

/-- Math.round(x * 1000) / 1000. -/
def round3 (q : ℚ) : ℚ := roundTo 3 q

/-- Math.round(x * 10000) / 10000. -/
def round4 (q : ℚ) : ℚ := roundTo 4 q

/-- q carries at most k decimal digits, i.e. q * 10^k is an integer. -/
def dpLE (k : ℕ) (q : ℚ) : Prop := (q * 10 ^ k).den = 1

instance (k : ℕ) (q : ℚ) : Decidable (dpLE k q) := by
  unfold dpLE
  infer_instance

theorem dpLE_roundTo (k : ℕ) (q : ℚ) : dpLE k (roundTo k q) := by
  unfold dpLE roundTo
  have h : (10 : ℚ) ^ k ≠ 0 := by positivity
  rw [div_mul_cancel₀ _ h]
  exact Rat.den_intCast _

theorem dpLE_mono {k k' : ℕ} (hk : k ≤ k') {q : ℚ} (h : dpLE k q) : dpLE k' q := by
  unfold dpLE at h ⊢
  have hq : ((q * 10 ^ k).num : ℚ) = q * 10 ^ k := (Rat.den_eq_one_iff _).mp h
  have hsplit : (10 : ℚ) ^ k' = 10 ^ k * 10 ^ (k' - k) := by
    rw [← pow_add, Nat.add_sub_cancel' hk]
  have : q * 10 ^ k' = (((q * 10 ^ k).num * 10 ^ (k' - k) : ℤ) : ℚ) := by
    push_cast
    rw [hq, hsplit]
    ring
  rw [this]
  exact Rat.den_intCast _

theorem roundTo_mono (k : ℕ) {a b : ℚ} (hab : a ≤ b) : roundTo k a ≤ roundTo k b := by
  unfold roundTo
  rw [jsRound_eq, jsRound_eq]
  have hpow : (0 : ℚ) < 10 ^ k := by positivity
  have hfl : (⌊a * 10 ^ k + 1/2⌋ : ℤ) ≤ ⌊b * 10 ^ k + 1/2⌋ := by
    apply Int.floor_le_floor
    have : a * 10 ^ k ≤ b * 10 ^ k := by
      exact mul_le_mul_of_nonneg_right hab (le_of_lt hpow)
    linarith
  apply div_le_div_of_nonneg_right _ hpow.le
  exact_mod_cast hfl

theorem round2_mono {a b : ℚ} (hab : a ≤ b) : round2 a ≤ round2 b := roundTo_mono 2 hab

/-! String rendering helpers for the summarizer.  These model the
JavaScript runtime number and date formatting functions (toFixed,
toLocaleString, toLocaleDateString) used by the source; locale behavior
is modelled for an en-US environment.  No claim inspects the text these
helpers produce. -/

/-- Insert a thousands separator after every third digit, counting from
the right, into a reversed digit list. -/
def groupRevDigits : List Char → List Char
  | a :: b :: c :: d :: rest => a :: b :: c :: ',' :: groupRevDigits (d :: rest)
  | l => l

/-- Thousands-grouping of a decimal digit string. -/
def groupDigits (s : String) : String :=
  String.mk (groupRevDigits s.data.reverse).reverse

/-- Decimal rendering of an integer. -/
def intStr (n : ℤ) : String :=
  if n < 0 then "-" ++ toString n.natAbs else toString n.natAbs

/-- Thousands-grouped rendering of an integer. -/
def intLocale (n : ℤ) : String :=
  if n < 0 then "-" ++ groupDigits (toString n.natAbs)
  else groupDigits (toString n.natAbs)

/-- Left-pad a digit string with zeros up to width d. -/
def padZeros (d : ℕ) (s : String) : String :=
  if d ≤ s.length then s
  else String.mk (List.replicate (d - s.length) '0') ++ s

/-- Drop trailing zero digits. -/
def trimZeros (s : String) : String :=
  String.mk (s.data.reverse.dropWhile (fun c => c = '0')).reverse

/-- Model of Number.prototype.toFixed(d). -/
def toFixedStr (d : ℕ) (q : ℚ) : String :=
  let n : ℤ := jsRound (q * 10 ^ d)
  let sign : String := if n < 0 then "-" else ""
  let a : ℕ := n.natAbs
  if d = 0 then sign ++ toString a
  else sign ++ toString (a / 10 ^ d) ++ "." ++ padZeros d (toString (a % 10 ^ d))

/-- Model of Number.prototype.toLocaleString() with default options:
grouped integer part, fractional part to at most three digits. -/
def ratLocale (q : ℚ) : String :=
  let neg : Bool := q < 0
  let a : ℕ := (jsRound (|q| * 1000)).natAbs
  let fs : String := trimZeros (padZeros 3 (toString (a % 1000)))
  (if neg then "-" else "") ++ groupDigits (toString (a / 1000)) ++
    (if fs = "" then "" else "." ++ fs)

/-- Model of toLocaleString(undefined, with minimum and maximum fraction
digits both 2). -/
def ratLocale2 (q : ℚ) : String :=
  let neg : Bool := q < 0
  let a : ℕ := (jsRound (|q| * 100)).natAbs
  (if neg then "-" else "") ++ groupDigits (toString (a / 100)) ++ "." ++
    padZeros 2 (toString (a % 100))

/-- Model of the default JavaScript number-to-string conversion used in
template literals, exact for the integer values it is applied to. -/
def ratStr (q : ℚ) : String :=
  if q.den = 1 then intStr q.num else toFixedStr 6 q

/-- Model of new Date(s).toLocaleDateString(): environment-dependent date
rendering, modelled as the identity on the stored ISO string. -/
def localeDateStr (s : String) : String := s

/-! Data model, from src/lib/platform-connectors/types.ts.  Numeric fields
are rationals; fields that may be absent are Option. -/

/-- The platform keys of StoredPlatformCredentials / StoredPlatformMetrics. -/
inductive Platform
  | mailchimp
  | bigcommerce
  | woocommerce
  | google_analytics
  | google_ads
deriving DecidableEq

/-- MailchimpCampaignSummary from types.ts. -/
structure MailchimpCampaignSummary where
  id : String
  subject : String
  send_time : String
  open_rate : ℚ
  click_rate : ℚ
  ctor : ℚ
  revenue : ℚ
  unique_opens : ℚ
  unique_clicks : ℚ
deriving DecidableEq

/-- MailchimpAutomationSummary from types.ts. -/
structure MailchimpAutomationSummary where
  id : String
  title : String
  status : String
  open_rate : ℚ
  click_rate : ℚ
deriving DecidableEq

/-- An entry of MailchimpMetrics.growth_history_3m. -/
structure GrowthMonth where
  month : String
  subscribed : ℚ
  unsubscribed : ℚ
deriving DecidableEq

/-- MailchimpMetrics from types.ts. -/
structure MailchimpMetrics where
  platform : String
  fetched_at : String
  list_name : String
  list_id : String
  list_size : ℚ
  open_rate : ℚ
  click_rate : ℚ
  click_to_open_rate : ℚ
  unsubscribe_rate : ℚ
  bounce_rate_hard : ℚ
  soft_bounce_rate : ℚ
  cleaned_count : ℚ
  total_contacts : ℚ
  campaign_count_30d : ℚ
  email_revenue_30d : ℚ
  new_subscribers_30d : ℚ
  lost_subscribers_30d : ℚ
  list_growth_rate : ℚ
  avg_sub_rate_monthly : ℚ
  list_rating : ℚ
  automation_count : ℚ
  automations : List MailchimpAutomationSummary
  top_campaigns : List MailchimpCampaignSummary
  growth_history_3m : List GrowthMonth
deriving DecidableEq

/-- BigCommerceMetrics from types.ts (legacy platform, kept for cached data). -/
structure BigCommerceMetrics where
  platform : String
  fetched_at : String
  currency : String
  total_orders_30d : ℚ
  total_revenue_30d : ℚ
  aov_30d : ℚ
  total_customers : ℚ
  new_customers_30d : ℚ
  repeat_purchase_rate : ℚ
  product_count : ℚ
deriving DecidableEq

/-- WooCommerceProductSummary from types.ts. -/
structure WooCommerceProductSummary where
  product_id : ℚ
  name : String
  quantity_sold : ℚ
  revenue : ℚ
deriving DecidableEq

/-- WooCommerceMetrics from types.ts. -/
structure WooCommerceMetrics where
  platform : String
  fetched_at : String
  store_url : String
  currency : String
  total_orders_30d : ℚ
  total_revenue_30d : ℚ
  aov_30d : ℚ
  new_customers_30d : ℚ
  refund_count_30d : ℚ
  total_orders_12m : ℚ
  total_revenue_12m : ℚ
  aov_12m : ℚ
  new_customers_12m : ℚ
  refund_count_12m : ℚ
  total_customers : ℚ
  product_count : ℚ
  repeat_purchase_rate : ℚ
  top_products_12m : List WooCommerceProductSummary
  repeat_purchase_products : List WooCommerceProductSummary
deriving DecidableEq

/-- Entries of GoogleAnalyticsMetrics.channels and device_breakdown. -/
structure ChannelSessions where
  channel : String
  sessions : ℚ
deriving DecidableEq

/-- Entries of GoogleAnalyticsMetrics.top_landing_pages. -/
structure LandingPageStat where
  page : String
  sessions : ℚ
  bounce_rate : ℚ
deriving DecidableEq

/-- GoogleAnalyticsMetrics from types.ts. -/
structure GoogleAnalyticsMetrics where
  platform : String
  fetched_at : String
  property_id : String
  monthly_sessions : ℚ
  bounce_rate : ℚ
  engagement_rate : ℚ
  avg_session_duration_sec : ℚ
  page_views_30d : ℚ
  new_users_30d : ℚ
  sessions_12m : ℚ
  new_users_12m : ℚ
  top_channel : String
  channels : List ChannelSessions
  device_breakdown : List ChannelSessions
  top_landing_pages : List LandingPageStat
deriving DecidableEq

/-- GoogleAdsCampaignSummary from types.ts. -/
structure GoogleAdsCampaignSummary where
  name : String
  spend : ℚ
  clicks : ℚ
  impressions : ℚ
  conversions : ℚ
  conversion_value : ℚ
  roas : ℚ
  ctr : ℚ
  cpc : ℚ
deriving DecidableEq

/-- GoogleAdsMetrics from types.ts. -/
structure GoogleAdsMetrics where
  platform : String
  fetched_at : String
  customer_id : String
  total_spend_30d : ℚ
  total_clicks_30d : ℚ
  total_impressions_30d : ℚ
  avg_ctr : ℚ
  avg_cpc : ℚ
  total_conversions_30d : ℚ
  cost_per_conversion : ℚ
  total_conversion_value_30d : ℚ
  roas_30d : ℚ
  conversion_rate_30d : ℚ
  top_campaigns : List GoogleAdsCampaignSummary
deriving DecidableEq

/-- StoredPlatformCredentials from types.ts: the persisted
platform-credentials JSON document.  No claim inspects the fields inside
one credential object, so each slot is modelled by the persisted JSON
text of that credential object. -/
structure StoredPlatformCredentials where
  mailchimp : Option String
  bigcommerce : Option String
  woocommerce : Option String
  google_analytics : Option String
  google_ads : Option String
deriving DecidableEq

/-- StoredPlatformMetrics from types.ts: the persisted platform-metrics
JSON document.  A slot is none exactly when the persisted JSON object has
no value under that key (JSON.stringify drops keys whose value is
undefined). -/
structure StoredPlatformMetrics where
  mailchimp : Option MailchimpMetrics
  bigcommerce : Option BigCommerceMetrics
  woocommerce : Option WooCommerceMetrics
  google_analytics : Option GoogleAnalyticsMetrics
  google_ads : Option GoogleAdsMetrics
  last_synced_at : Option String
deriving DecidableEq

/-- Read a credentials slot by platform key (creds[platform]). -/
def StoredPlatformCredentials.get (c : StoredPlatformCredentials) : Platform → Option String
  | .mailchimp => c.mailchimp
  | .bigcommerce => c.bigcommerce
  | .woocommerce => c.woocommerce
  | .google_analytics => c.google_analytics
  | .google_ads => c.google_ads

/-- Replace one credentials slot ({ ...existing, [platform]: credentials }). -/
def StoredPlatformCredentials.set (c : StoredPlatformCredentials) (p : Platform)
    (v : String) : StoredPlatformCredentials :=
  match p with
  | .mailchimp => { c with mailchimp := some v }
  | .bigcommerce => { c with bigcommerce := some v }
  | .woocommerce => { c with woocommerce := some v }
  | .google_analytics => { c with google_analytics := some v }
  | .google_ads => { c with google_ads := some v }

/-- The empty credentials document. -/
def emptyCreds : StoredPlatformCredentials := ⟨none, none, none, none, none⟩

/-- The single-entry credentials object { [platform]: creds[platform] }
built by the sync route. -/
def singleCred (p : Platform) (v : String) : StoredPlatformCredentials :=
  emptyCreds.set p v

/-! Mailchimp connector, from the fetchMailchimpMetrics derivation steps
(steps 3 to 7) that run on the parsed vendor responses.  Timestamps are
epoch milliseconds: nowMs models Date.now() and dateMs models
new Date(s).getTime() on the ISO strings the vendor returns. -/

/-- The report_summary object of one Mailchimp campaign report. -/
structure MCReportSummary where
  open_rate : Option ℚ
  click_rate : Option ℚ
  opens : Option ℚ
  clicks : Option ℚ
  unique_opens : Option ℚ
  unique_clicks : Option ℚ
deriving DecidableEq

/-- The empty object used for r.report_summary ?? {}. -/
def mcSummaryEmpty : MCReportSummary := ⟨none, none, none, none, none, none⟩

/-- RawReport: one entry of the Mailchimp reports response. -/
structure MCRawReport where
  id : String
  subject_line : Option String
  send_time : Option String
  report_summary : Option MCReportSummary
  ecommerce_total_revenue : Option ℚ
deriving DecidableEq

/-- The stats object of the Mailchimp list response. -/
structure MCListStats where
  member_count : Option ℚ
  avg_open_rate : Option ℚ
  avg_click_rate : Option ℚ
  unsubscribe_rate : Option ℚ
  hard_bounce_rate : Option ℚ
  soft_bounce_rate : Option ℚ
  cleaned_count : Option ℚ
  total_contacts : Option ℚ
  avg_sub_rate : Option ℚ
deriving DecidableEq

/-- The empty object used for listData.stats ?? {}. -/
def mcStatsEmpty : MCListStats := ⟨none, none, none, none, none, none, none, none, none⟩

/-- The parsed Mailchimp list response (the primary call of the fetch). -/
structure MCListData where
  name : Option String
  stats : Option MCListStats
  list_rating : Option ℚ
deriving DecidableEq

/-- GrowthEntry: one entry of the growth-history response. -/
structure MCGrowthEntry where
  month : String
  subscribed : Option ℚ
  unsubscribed : Option ℚ
deriving DecidableEq

/-- RawAutomation, with the settings.title and report_summary fields the
source reads, already projected. -/
structure MCRawAutomation where
  id : String
  title : Option String
  status : Option String
  open_rate : Option ℚ
  click_rate : Option ℚ
deriving DecidableEq

/-- r.report_summary ?? {}. -/
def mcSummaryOf (r : MCRawReport) : MCReportSummary :=
  r.report_summary.getD mcSummaryEmpty

/-- r.report_summary?.open_rate ?? 0. -/
def mcOpenRateOf (r : MCRawReport) : ℚ :=
  (mcSummaryOf r).open_rate.getD 0

/-- campData.reports ?? [] after the campRes.ok check. -/
def mcReports (campOk : Bool) (reportsRaw : List MCRawReport) : List MCRawReport :=
  if campOk then reportsRaw else []

/-- The last-30-days window test: r.send_time is a nonempty string whose
parse is at or after Date.now() minus 30 days. -/
def mcInWindow (nowMs : ℤ) (dateMs : String → ℤ) (r : MCRawReport) : Bool :=
  match r.send_time with
  | none => false
  | some s => s ≠ "" ∧ nowMs - 30 * 24 * 60 * 60 * 1000 ≤ dateMs s

/-- reports30d. -/
def mcWindow (nowMs : ℤ) (dateMs : String → ℤ) (campOk : Bool)
    (reportsRaw : List MCRawReport) : List MCRawReport :=
  (mcReports campOk reportsRaw).filter (mcInWindow nowMs dateMs)

/-- The guarded per-campaign click-to-open ratio accumulated into
sumClickOpens: unique_clicks over unique_opens, 0 when unique_opens is
not positive. -/
def mcPerCtor (r : MCRawReport) : ℚ :=
  let s := mcSummaryOf r
  let uo := s.unique_opens.getD 0
  let uc := s.unique_clicks.getD 0
  if 0 < uo then uc / uo else 0

/-- The campaign summary record built for one selected report. -/
def mcMkCampaign (r : MCRawReport) : MailchimpCampaignSummary :=
  let s := mcSummaryOf r
  let uo := s.unique_opens.getD 0
  let uc := s.unique_clicks.getD 0
  { id := r.id
    subject := r.subject_line.getD "(no subject)"
    send_time := r.send_time.getD ""
    open_rate := s.open_rate.getD 0
    click_rate := s.click_rate.getD 0
    ctor := if 0 < uo then uc / uo else 0
    revenue := r.ecommerce_total_revenue.getD 0
    unique_opens := uo
    unique_clicks := uc }

/-- The outlier top-campaign selection: keep reports whose open rate is at
least the threshold, sort descending by open rate, cap at 10, and build
summaries.  The threshold is openRate * 1.2. -/
def mcTopCampaigns (threshold : ℚ) (reports : List MCRawReport) :
    List MailchimpCampaignSummary :=
  ((((reports.filter (fun r => threshold ≤ mcOpenRateOf r)).mergeSort
      (fun a b => decide (mcOpenRateOf b ≤ mcOpenRateOf a))).take 10).map mcMkCampaign)

/-- Steps 3 to 7 of fetchMailchimpMetrics: derive the normalized record
from the parsed responses.  listName0 and listId come from step 1 (the
list auto-selection); listName0 is the empty string when step 1 did not
resolve a name.  The campOk, growthOk and autoOk flags model res.ok of
the three secondary calls; the primary list call must have succeeded for
this code to run at all. -/
def mailchimpDerive (nowMs : ℤ) (dateMs : String → ℤ) (fetchedAt : String)
    (listName0 listId : String) (listData : MCListData)
    (campOk : Bool) (reportsRaw : List MCRawReport)
    (growthOk : Bool) (growth : List MCGrowthEntry)
    (autoOk : Bool) (autos : List MCRawAutomation) : MailchimpMetrics :=
  let listName := if listName0 = "" then listData.name.getD listId else listName0
  let stats := listData.stats.getD mcStatsEmpty
  let reports := mcReports campOk reportsRaw
  let reports30d := mcWindow nowMs dateMs campOk reportsRaw
  let sumOpen := (reports30d.map (fun r => (mcSummaryOf r).open_rate.getD 0)).sum
  let sumClick := (reports30d.map (fun r => (mcSummaryOf r).click_rate.getD 0)).sum
  let sumClickOpens := (reports30d.map mcPerCtor).sum
  let emailRevenue := (reports30d.map (fun r => r.ecommerce_total_revenue.getD 0)).sum
  let n30 : ℕ := reports30d.length
  let openRate := if 0 < n30 then sumOpen / n30 else stats.avg_open_rate.getD 0
  let clickRate := if 0 < n30 then sumClick / n30 else stats.avg_click_rate.getD 0
  let clickToOpenRate := if 0 < n30 then sumClickOpens / n30 else 0
  let threshold := openRate * (12 / 10)
  let growthHistory := if growthOk then growth else []
  let newSubs := match growthHistory.head? with
    | some latest => latest.subscribed.getD 0
    | none => 0
  let lostSubs := match growthHistory.head? with
    | some latest => latest.unsubscribed.getD 0
    | none => 0
  let listSize := stats.member_count.getD 0
  let listGrowthRate := if 0 < listSize then (newSubs - lostSubs) / listSize else 0
  let automations := (if autoOk then autos else []).map (fun a =>
    ({ id := a.id
       title := a.title.getD a.id
       status := a.status.getD "unknown"
       open_rate := a.open_rate.getD 0
       click_rate := a.click_rate.getD 0 } : MailchimpAutomationSummary))
  let growthHistory3m := (growthHistory.take 3).map (fun e =>
    ({ month := e.month
       subscribed := e.subscribed.getD 0
       unsubscribed := e.unsubscribed.getD 0 } : GrowthMonth))
  { platform := "mailchimp"
    fetched_at := fetchedAt
    list_name := listName
    list_id := listId
    list_size := listSize
    open_rate := openRate
    click_rate := clickRate
    click_to_open_rate := clickToOpenRate
    unsubscribe_rate := stats.unsubscribe_rate.getD 0
    bounce_rate_hard := stats.hard_bounce_rate.getD 0
    soft_bounce_rate := stats.soft_bounce_rate.getD 0
    cleaned_count := stats.cleaned_count.getD 0
    total_contacts := stats.total_contacts.getD (stats.member_count.getD listSize)
    campaign_count_30d := n30
    email_revenue_30d := emailRevenue
    new_subscribers_30d := newSubs
    lost_subscribers_30d := lostSubs
    list_growth_rate := listGrowthRate
    avg_sub_rate_monthly := stats.avg_sub_rate.getD 0
    list_rating := listData.list_rating.getD 0
    automation_count := automations.length
    automations := automations
    top_campaigns := mcTopCampaigns threshold reports
    growth_history_3m := growthHistory3m }

/-! Google Ads connector, from the fetchGoogleAdsMetrics derivation that
runs on the parsed search response rows.  The vendor sends the numeric
metrics as strings; the parseInt / parseFloat results are modelled by the
already-parsed numeric values. -/

/-- One row of the googleAds search response, with the campaign.name and
metrics fields the source reads already projected. -/
structure GadsRow where
  campaign_name : Option String
  impressions : Option ℤ
  clicks : Option ℤ
  cost_micros : Option ℤ
  conversions : Option ℚ
  conversions_value : Option ℚ
deriving DecidableEq

/-- The per-campaign accumulator stored in campaignMap. -/
structure GadsAgg where
  impressions : ℤ
  clicks : ℤ
  costMicros : ℤ
  conversions : ℚ
  conversionValue : ℚ
deriving DecidableEq

/-- The parsed metric values of one row (each ?? "0"). -/
def gadsRowAgg (row : GadsRow) : GadsAgg :=
  { impressions := row.impressions.getD 0
    clicks := row.clicks.getD 0
    costMicros := row.cost_micros.getD 0
    conversions := row.conversions.getD 0
    conversionValue := row.conversions_value.getD 0 }

/-- row.campaign?.name ?? "Unknown Campaign". -/
def gadsRowName (row : GadsRow) : String :=
  row.campaign_name.getD "Unknown Campaign"

/-- Field-wise addition of two accumulators (the in-place += block). -/
def gadsAddAgg (a b : GadsAgg) : GadsAgg :=
  { impressions := a.impressions + b.impressions
    clicks := a.clicks + b.clicks
    costMicros := a.costMicros + b.costMicros
    conversions := a.conversions + b.conversions
    conversionValue := a.conversionValue + b.conversionValue }

/-- One campaignMap update: accumulate into the existing entry for this
name, or append a new entry.  The association list preserves first
insertion order, as a JavaScript Map does. -/
def gadsMapUpd (m : List (String × GadsAgg)) (name : String) (v : GadsAgg) :
    List (String × GadsAgg) :=
  match m with
  | [] => [(name, v)]
  | (k, w) :: rest =>
    if k = name then (k, gadsAddAgg w v) :: rest else (k, w) :: gadsMapUpd rest name v

/-- The campaignMap built by the row loop. -/
def gadsCampaignMap (rows : List GadsRow) : List (String × GadsAgg) :=
  rows.foldl (fun m row => gadsMapUpd m (gadsRowName row) (gadsRowAgg row)) []

/-- The campaign summary built from one campaignMap entry (all monetary
fields rounded to 2 decimals, ctr to 4). -/
def gadsMkCampaign (e : String × GadsAgg) : GoogleAdsCampaignSummary :=
  let c := e.2
  let spend : ℚ := (c.costMicros : ℚ) / 1000000
  let ctr : ℚ := if 0 < c.impressions then (c.clicks : ℚ) / (c.impressions : ℚ) else 0
  let cpc : ℚ := if 0 < c.clicks then spend / (c.clicks : ℚ) else 0
  let roas : ℚ := if 0 < spend then c.conversionValue / spend else 0
  { name := e.1
    spend := round2 spend
    clicks := (c.clicks : ℚ)
    impressions := (c.impressions : ℚ)
    conversions := round2 c.conversions
    conversion_value := round2 c.conversionValue
    roas := round2 roas
    ctr := round4 ctr
    cpc := round2 cpc }

/-- The sorted, capped campaign summary array (top 10 by spend). -/
def gadsTopCampaigns (rows : List GadsRow) : List GoogleAdsCampaignSummary :=
  ((((gadsCampaignMap rows).mergeSort
      (fun a b => decide (b.2.costMicros ≤ a.2.costMicros))).take 10).map gadsMkCampaign)

/-- The totals accumulated by the row loop. -/
def gadsTotals (rows : List GadsRow) : GadsAgg :=
  rows.foldl (fun t row => gadsAddAgg t (gadsRowAgg row)) ⟨0, 0, 0, 0, 0⟩

/-- The derivation of fetchGoogleAdsMetrics on the parsed response rows. -/
def gadsDerive (rows : List GadsRow) (fetchedAt customerId : String) : GoogleAdsMetrics :=
  let t := gadsTotals rows
  let totalSpend : ℚ := (t.costMicros : ℚ) / 1000000
  let avgCtr : ℚ := if 0 < t.impressions then (t.clicks : ℚ) / (t.impressions : ℚ) else 0
  let avgCpc : ℚ := if 0 < t.clicks then totalSpend / (t.clicks : ℚ) else 0
  let costPerConversion : ℚ := if 0 < t.conversions then totalSpend / t.conversions else 0
  let roas30d : ℚ := if 0 < totalSpend then t.conversionValue / totalSpend else 0
  let conversionRate30d : ℚ := if 0 < t.clicks then t.conversions / (t.clicks : ℚ) else 0
  { platform := "google_ads"
    fetched_at := fetchedAt
    customer_id := customerId
    total_spend_30d := round2 totalSpend
    total_clicks_30d := (t.clicks : ℚ)
    total_impressions_30d := (t.impressions : ℚ)
    avg_ctr := round4 avgCtr
    avg_cpc := round2 avgCpc
    total_conversions_30d := round2 t.conversions
    cost_per_conversion := round2 costPerConversion
    total_conversion_value_30d := round2 t.conversionValue
    roas_30d := round2 roas30d
    conversion_rate_30d := round4 conversionRate30d
    top_campaigns := gadsTopCampaigns rows }

/-! WooCommerce connector, from the fetchWooCommerceMetrics derivation
that runs on the parsed vendor responses.  Vendor numbers arriving as
strings are modelled by their parsed values. -/

/-- The reports/sales summary object read by parseSalesReport. -/
structure WCSalesRaw where
  num_orders : Option ℤ
  total_sales : Option ℚ
deriving DecidableEq

/-- parseSalesReport: num_orders ?? "0" and total_sales ?? "0", parsed. -/
def parseSalesReport (raw : WCSalesRaw) : ℤ × ℚ :=
  (raw.num_orders.getD 0, raw.total_sales.getD 0)

/-- A count endpoint response: the ok flag and the X-WP-Total header
value (none when the header is absent or malformed). -/
structure HdrRes where
  ok : Bool
  xTotal : Option ℤ
deriving DecidableEq

/-- getTotal: safe-parse of the X-WP-Total header, defaulting to 0. -/
def getTotal (r : HdrRes) : ℤ := r.xTotal.getD 0

/-- One entry of the reports/top_sellers response; alt_id models the
item.id fallback field. -/
structure WCTopSeller where
  product_id : Option ℤ
  alt_id : Option ℤ
  title : Option String
  name : Option String
  quantity : Option ℤ
deriving DecidableEq

/-- One line item of an order. -/
structure WCOrderLine where
  product_id : ℤ
  name : Option String
  quantity : ℤ
deriving DecidableEq

/-- One completed order of the repeat-purchase sample. -/
structure WCOrder where
  id : ℤ
  customer_id : ℤ
  date_created : String
  line_items : List WCOrderLine
deriving DecidableEq

/-- The product summary built from one top_sellers entry:
String(item.title ?? item.name ?? a Product template that renders the
text undefined when product_id is absent). -/
def wcMkProd (item : WCTopSeller) : WooCommerceProductSummary :=
  { product_id := ((item.product_id.getD (item.alt_id.getD 0)) : ℚ)
    name := item.title.getD (item.name.getD
      (match item.product_id with
       | some pid => "Product " ++ intStr pid
       | none => "Product undefined"))
    quantity_sold := ((item.quantity.getD 0) : ℚ)
    revenue := 0 }

/-- One byCustomer update: append the order to the existing group for
this customer id, or append a new group.  The association list preserves
first insertion order, as a JavaScript Map does. -/
def wcGroupAdd (m : List (ℤ × List WCOrder)) (cid : ℤ) (o : WCOrder) :
    List (ℤ × List WCOrder) :=
  match m with
  | [] => [(cid, [o])]
  | (k, os) :: rest =>
    if k = cid then (k, os ++ [o]) :: rest else (k, os) :: wcGroupAdd rest cid o

/-- byCustomer: group the sampled orders by customer, skipping guests
(customer_id falsy, i.e. 0). -/
def wcByCustomer (orders : List WCOrder) : List (ℤ × List WCOrder) :=
  orders.foldl (fun m o => if o.customer_id = 0 then m else wcGroupAdd m o.customer_id o) []

/-- One secondPurchaseCounts update: increment the count of an existing
product id (keeping its first-seen name) or append a new entry. -/
def wcCountUpd (m : List (ℤ × String × ℤ)) (pid : ℤ) (name : String) :
    List (ℤ × String × ℤ) :=
  match m with
  | [] => [(pid, name, 1)]
  | (k, nm, c) :: rest =>
    if k = pid then (k, nm, c + 1) :: rest else (k, nm, c) :: wcCountUpd rest pid name

/-- The chronologically second order of one customer group (the group is
sorted ascending by date first; only groups with at least two orders are
visited). -/
def wcSecondOrderItems (dateMs : String → ℤ) (os : List WCOrder) : List WCOrderLine :=
  match os.mergeSort (fun a b => decide (dateMs a.date_created ≤ dateMs b.date_created)) with
  | _ :: o2 :: _ => o2.line_items
  | _ => []

/-- secondPurchaseCounts: harvest the second-order line items of every
repeat customer, skipping line items with a falsy product id. -/
def wcSecondCounts (dateMs : String → ℤ) (groups : List (ℤ × List WCOrder)) :
    List (ℤ × String × ℤ) :=
  groups.foldl (fun acc g =>
    if g.2.length < 2 then acc
    else (wcSecondOrderItems dateMs g.2).foldl (fun acc2 item =>
      if item.product_id = 0 then acc2
      else wcCountUpd acc2 item.product_id
        (item.name.getD ("Product " ++ intStr item.product_id))) acc) []

/-- repeatBuyers: the number of customers with at least two sampled orders. -/
def wcRepeatBuyers (groups : List (ℤ × List WCOrder)) : ℕ :=
  (groups.filter (fun g => 2 ≤ g.2.length)).length

/-- The most-common-second-purchase list: sort descending by count, cap
at 10. -/
def wcRepeatProducts (counts : List (ℤ × String × ℤ)) : List WooCommerceProductSummary :=
  (((counts.mergeSort (fun a b => decide (b.2.2 ≤ a.2.2))).take 10).map (fun e =>
    ({ product_id := (e.1 : ℚ)
       name := e.2.1
       quantity_sold := (e.2.2 : ℚ)
       revenue := 0 } : WooCommerceProductSummary)))

/-- The orders, revenue and AOV derived from the optional 12-month sales
report (zero when the call failed or the body did not parse). -/
def wcSales12 (sales12m : Option WCSalesRaw) : ℤ × ℚ × ℚ :=
  match sales12m with
  | none => (0, 0, 0)
  | some raw =>
    let p := parseSalesReport raw
    (p.1, p.2, if 0 < p.1 then p.2 / (p.1 : ℚ) else 0)

/-- strip one trailing slash from the store URL (the replace of a
trailing-slash pattern). -/
def stripTrailingSlash (s : String) : String :=
  if s.endsWith "/" then s.dropRight 1 else s

/-- The derivation of fetchWooCommerceMetrics on the parsed responses.
sales30 is the primary endpoint and has already passed its ok check;
sales12m is none when the 12-month call failed or returned an unparsable
body; topSellers and the two order pages are none when the respective
call failed or returned a non-array body. -/
def wooDerive (dateMs : String → ℤ) (fetchedAt storeUrl : String)
    (sales30 : WCSalesRaw) (sales12m : Option WCSalesRaw)
    (customers newCust30 newCust12m products refunds30 refunds12m : HdrRes)
    (currencyVal : Option String)
    (topSellers : Option (List WCTopSeller))
    (orders1 orders2 : Option (List WCOrder)) : WooCommerceMetrics :=
  let p30 := parseSalesReport sales30
  let orders30 := p30.1
  let revenue30 := p30.2
  let aov30 : ℚ := if 0 < orders30 then revenue30 / (orders30 : ℚ) else 0
  let s12 := wcSales12 sales12m
  let totalCustomers := if customers.ok then getTotal customers else 0
  let newC30 := if newCust30.ok then getTotal newCust30 else 0
  let newC12m := if newCust12m.ok then getTotal newCust12m else 0
  let productCount := if products.ok then getTotal products else 0
  let ref30 := if refunds30.ok then getTotal refunds30 else 0
  let ref12m := if refunds12m.ok then getTotal refunds12m else 0
  let currency := currencyVal.getD "USD"
  let topProducts := ((topSellers.getD []).take 15).map wcMkProd
  let allOrders := orders1.getD [] ++ orders2.getD []
  let byCustomer := wcByCustomer allOrders
  let repeatBuyers := wcRepeatBuyers byCustomer
  let repeatPurchaseRate : ℚ :=
    if 0 < byCustomer.length then (repeatBuyers : ℚ) / (byCustomer.length : ℚ) else 0
  { platform := "woocommerce"
    fetched_at := fetchedAt
    store_url := stripTrailingSlash storeUrl
    currency := currency
    total_orders_30d := (orders30 : ℚ)
    total_revenue_30d := round2 revenue30
    aov_30d := round2 aov30
    new_customers_30d := (newC30 : ℚ)
    refund_count_30d := (ref30 : ℚ)
    total_orders_12m := (s12.1 : ℚ)
    total_revenue_12m := round2 s12.2.1
    aov_12m := round2 s12.2.2
    new_customers_12m := (newC12m : ℚ)
    refund_count_12m := (ref12m : ℚ)
    total_customers := (totalCustomers : ℚ)
    product_count := (productCount : ℚ)
    repeat_purchase_rate := round3 repeatPurchaseRate
    top_products_12m := topProducts
    repeat_purchase_products := wcRepeatProducts (wcSecondCounts dateMs byCustomer) }

/-! Google Analytics connector, from the fetchGoogleAnalyticsMetrics
derivation that runs on the parsed report responses. -/

/-- Model of parseInt applied to a numeric string: truncation toward zero
of the parsed value. -/
def truncToInt (q : ℚ) : ℤ := if q < 0 then -⌊-q⌋ else ⌊q⌋

/-- One GA4 report row; the metric value strings are modelled by their
parsed values. -/
structure GA4Row where
  dims : List String
  mets : List ℚ
deriving DecidableEq

/-- rowMetric with its default "0". -/
def rowMetric (r : GA4Row) (i : ℕ) : ℚ := r.mets.getD i 0

/-- rowDim with its default "Unknown". -/
def rowDim (r : GA4Row) (i : ℕ) : String := r.dims.getD i "Unknown"

/-- The empty row used for rows?.[0] ?? {}. -/
def ga4EmptyRow : GA4Row := ⟨[], []⟩

/-- The landing-page entry built from one row of report 4. -/
def gaMkLanding (r : GA4Row) : LandingPageStat :=
  { page := rowDim r 0
    sessions := (truncToInt (rowMetric r 0) : ℚ)
    bounce_rate := round3 (rowMetric r 1 / 100) }

/-- The channel or device entry built from one row of report 2 or 3. -/
def gaMkChannel (r : GA4Row) : ChannelSessions :=
  { channel := rowDim r 0
    sessions := (truncToInt (rowMetric r 0) : ℚ) }

/-- The derivation of fetchGoogleAnalyticsMetrics on the parsed report
responses.  summaryRows comes from the primary report, which has already
passed its ok check; the other arguments are none when the respective
secondary report call failed. -/
def gaDerive (fetchedAt pid : String) (summaryRows : List GA4Row)
    (channelRows deviceRows landingRows annualRows : Option (List GA4Row)) :
    GoogleAnalyticsMetrics :=
  let sRow := summaryRows.getD 0 ga4EmptyRow
  let sessions := truncToInt (rowMetric sRow 0)
  let bounceRate := rowMetric sRow 1 / 100
  let newUsers := truncToInt (rowMetric sRow 2)
  let engagementRate := rowMetric sRow 3 / 100
  let avgSessionDurationSec := rowMetric sRow 4
  let pageViews := truncToInt (rowMetric sRow 5)
  let channels := (channelRows.getD []).map gaMkChannel
  let topChannel := match channels.head? with
    | some c => c.channel
    | none => "Unknown"
  let deviceBreakdown := (deviceRows.getD []).map gaMkChannel
  let topLandingPages := (landingRows.getD []).map gaMkLanding
  let annual := match annualRows with
    | some rows =>
      let aRow := rows.getD 0 ga4EmptyRow
      (truncToInt (rowMetric aRow 0), truncToInt (rowMetric aRow 1))
    | none => (0, 0)
  { platform := "google_analytics"
    fetched_at := fetchedAt
    property_id := pid
    monthly_sessions := (sessions : ℚ)
    bounce_rate := round3 bounceRate
    engagement_rate := round3 engagementRate
    avg_session_duration_sec := (jsRound avgSessionDurationSec : ℚ)
    page_views_30d := (pageViews : ℚ)
    new_users_30d := (newUsers : ℚ)
    sessions_12m := (annual.1 : ℚ)
    new_users_12m := (annual.2 : ℚ)
    top_channel := topChannel
    channels := channels
    device_breakdown := deviceBreakdown
    top_landing_pages := topLandingPages }

/-! Aggregator, from fetchAllPlatformMetrics in
src/lib/platform-connectors/index.ts.  Each connector invocation is
modelled by its settled outcome: Except.ok with the fetched record, or
Except.error with the rejection message (swallowed by the catch). -/

/-- The settled outcomes of the four connector invocations the aggregator
can launch. -/
structure ConnectorRuns where
  mailchimp : Except String MailchimpMetrics
  woocommerce : Except String WooCommerceMetrics
  google_analytics : Except String GoogleAnalyticsMetrics
  google_ads : Except String GoogleAdsMetrics

/-- Truthiness of creds[p]. -/
def credPresent (creds : StoredPlatformCredentials) (p : Platform) : Bool :=
  (creds.get p).isSome

/-- The platforms for which the aggregator pushes a connector task: one
if-block per dispatched platform, in source order. -/
def invokedPlatforms (creds : StoredPlatformCredentials) : List Platform :=
  (if creds.mailchimp.isSome then [Platform.mailchimp] else []) ++
  (if creds.woocommerce.isSome then [Platform.woocommerce] else []) ++
  (if creds.google_analytics.isSome then [Platform.google_analytics] else []) ++
  (if creds.google_ads.isSome then [Platform.google_ads] else [])

/-- fetchAllPlatformMetrics: fan out to the connectors of the present
platforms, keep each fulfilled result in its slot, swallow each
rejection, and stamp last_synced_at after all settle. -/
def fetchAllPlatformMetrics (creds : StoredPlatformCredentials)
    (runs : ConnectorRuns) (now : String) : StoredPlatformMetrics :=
  { mailchimp := if creds.mailchimp.isSome then runs.mailchimp.toOption else none
    bigcommerce := none
    woocommerce := if creds.woocommerce.isSome then runs.woocommerce.toOption else none
    google_analytics :=
      if creds.google_analytics.isSome then runs.google_analytics.toOption else none
    google_ads := if creds.google_ads.isSome then runs.google_ads.toOption else none
    last_synced_at := some now }

/-! API routes, from src/app/api/platforms/route.ts (connect) and the
platforms/[platform] route (sync, disconnect).  The blob store is
modelled as reliable: readJsonBlob returns the current document and
writeJsonBlob replaces it.  Each route model returns the documents as
persisted after the operation together with the HTTP response. -/

/-- The response of POST /api/platforms. -/
inductive ConnectResult
  | badRequest (msg : String)
  | connectorError (msg : String)
  | ok
deriving DecidableEq

/-- The state and response after POST /api/platforms. -/
structure PostOutcome where
  creds : StoredPlatformCredentials
  metrics : StoredPlatformMetrics
  response : ConnectResult
deriving DecidableEq

/-- The outcome of the connection test the POST route runs for platform p. -/
def runFailsWith (p : Platform) (runs : ConnectorRuns) (msg : String) : Prop :=
  match p with
  | .mailchimp => runs.mailchimp = .error msg
  | .bigcommerce => False
  | .woocommerce => runs.woocommerce = .error msg
  | .google_analytics => runs.google_analytics = .error msg
  | .google_ads => runs.google_ads = .error msg

/-- POST /api/platforms: merge the submitted credential, test the
connection by calling the specific connector directly, and only on
success write the merged credentials and the merged metrics documents. -/
def postPlatforms (platform : Platform) (credJson : String) (runs : ConnectorRuns)
    (now : String) (creds0 : StoredPlatformCredentials)
    (metrics0 : StoredPlatformMetrics) : PostOutcome :=
  let updatedCreds := creds0.set platform credJson
  match platform with
  | .bigcommerce => ⟨creds0, metrics0, .badRequest "Unknown platform: bigcommerce"⟩
  | .mailchimp =>
    match runs.mailchimp with
    | .error e => ⟨creds0, metrics0, .connectorError e⟩
    | .ok m =>
      ⟨updatedCreds,
        { metrics0 with mailchimp := some m, last_synced_at := some now }, .ok⟩
  | .woocommerce =>
    match runs.woocommerce with
    | .error e => ⟨creds0, metrics0, .connectorError e⟩
    | .ok m =>
      ⟨updatedCreds,
        { metrics0 with woocommerce := some m, last_synced_at := some now }, .ok⟩
  | .google_analytics =>
    match runs.google_analytics with
    | .error e => ⟨creds0, metrics0, .connectorError e⟩
    | .ok m =>
      ⟨updatedCreds,
        { metrics0 with google_analytics := some m, last_synced_at := some now }, .ok⟩
  | .google_ads =>
    match runs.google_ads with
    | .error e => ⟨creds0, metrics0, .connectorError e⟩
    | .ok m =>
      ⟨updatedCreds,
        { metrics0 with google_ads := some m, last_synced_at := some now }, .ok⟩

/-- The response of GET /api/platforms/[platform]. -/
inductive SyncResult
  | notConnected
  | okSynced
deriving DecidableEq

/-- The metrics document and response after GET /api/platforms/[platform]. -/
structure SyncOutcome where
  metricsDoc : StoredPlatformMetrics
  response : SyncResult
deriving DecidableEq

/-- The merge { ...existingMetrics, [platform]: freshMetrics[platform],
last_synced_at }: the slot is copied from the fresh result even when it
is undefined there, and JSON.stringify then drops the key, so a none
fresh slot removes the cached record from the persisted document. -/
def mergeSlot (existing fresh : StoredPlatformMetrics) (p : Platform)
    (now : String) : StoredPlatformMetrics :=
  match p with
  | .mailchimp => { existing with mailchimp := fresh.mailchimp, last_synced_at := some now }
  | .bigcommerce => { existing with bigcommerce := fresh.bigcommerce, last_synced_at := some now }
  | .woocommerce => { existing with woocommerce := fresh.woocommerce, last_synced_at := some now }
  | .google_analytics =>
    { existing with google_analytics := fresh.google_analytics, last_synced_at := some now }
  | .google_ads => { existing with google_ads := fresh.google_ads, last_synced_at := some now }

/-- GET /api/platforms/[platform]: refresh one already-connected platform
through the aggregator (which swallows connector failures) and merge the
fresh result into the cached metrics document.  The catch branch around
the aggregator call is unreachable because the aggregator never rejects,
so the route always reaches the merge once the platform is connected. -/
def syncPlatform (p : Platform) (creds0 : StoredPlatformCredentials)
    (metrics0 : StoredPlatformMetrics) (runs : ConnectorRuns)
    (now1 now2 : String) : SyncOutcome :=
  match creds0.get p with
  | none => ⟨metrics0, .notConnected⟩
  | some v =>
    let fresh := fetchAllPlatformMetrics (singleCred p v) runs now1
    ⟨mergeSlot metrics0 fresh p now2, .okSynced⟩

/-! Prompt-context summarizer, from buildPlatformMetricsSummary in
src/lib/platform-connectors/index.ts. -/

/-- A percentage rendering (x * 100).toFixed(d) with a percent sign. -/
def pctStr (d : ℕ) (q : ℚ) : String := toFixedStr d (q * 100) ++ "%"

/-- The Mailchimp section lines. -/
def mailchimpSection (m : MailchimpMetrics) : List String :=
  ["### Mailchimp (Email Marketing)",
   "- List: \"" ++ m.list_name ++ "\" — " ++ ratLocale m.list_size ++
     " active subscribers (" ++ ratLocale m.total_contacts ++
     " total contacts incl. unsubscribed)",
   "- Mailchimp list quality rating: " ++ ratStr m.list_rating ++ "/5",
   "- Average open rate (last 30d campaigns): " ++ pctStr 1 m.open_rate,
   "- Average click rate: " ++ pctStr 1 m.click_rate,
   "- Click-to-open rate (CTOR): " ++ pctStr 1 m.click_to_open_rate,
   "- Unsubscribe rate: " ++ pctStr 2 m.unsubscribe_rate,
   "- Hard bounce rate: " ++ pctStr 2 m.bounce_rate_hard ++
     " | Soft bounce rate: " ++ pctStr 2 m.soft_bounce_rate,
   "- Cleaned addresses (hard bounced / abuse complaints, all-time): " ++
     ratLocale m.cleaned_count,
   "- Campaigns sent in last 30 days: " ++ ratStr m.campaign_count_30d,
   "- Email-attributed revenue (last 30d): $" ++ ratLocale2 m.email_revenue_30d,
   "- New subscribers (last month): " ++ ratLocale m.new_subscribers_30d ++
     " | Lost: " ++ ratLocale m.lost_subscribers_30d ++
     " | Net growth rate: " ++ pctStr 2 m.list_growth_rate,
   "- Avg new subscribers added per month (all-time): " ++ ratLocale m.avg_sub_rate_monthly,
   "- Active automations/flows: " ++ ratStr m.automation_count] ++
  (if 0 < m.growth_history_3m.length then
    "- 3-month subscriber growth history:" ::
      m.growth_history_3m.map (fun g =>
        "  - " ++ g.month ++ ": +" ++ ratLocale g.subscribed ++ " subscribed / -" ++
          ratLocale g.unsubscribed ++ " unsubscribed")
   else []) ++
  (if 0 < m.automations.length then
    "- Automation details:" ::
      m.automations.map (fun a =>
        "  - \"" ++ a.title ++ "\" — open " ++ pctStr 1 a.open_rate ++
          ", click " ++ pctStr 1 a.click_rate)
   else []) ++
  (if 0 < m.top_campaigns.length then
    "- Top-performing campaigns (≥20% above avg open rate, sorted by open rate):" ::
      m.top_campaigns.map (fun c =>
        let sentDate := if c.send_time = "" then "?" else localeDateStr c.send_time
        let revNote := if 0 < c.revenue then " | revenue $" ++ ratLocale c.revenue else ""
        "  - \"" ++ c.subject ++ "\" (" ++ sentDate ++ ") — open " ++
          pctStr 1 c.open_rate ++ ", CTOR " ++ pctStr 1 c.ctor ++ revNote)
   else []) ++
  [""]

/-- The WooCommerce section lines. -/
def wooSection (m : WooCommerceMetrics) : List String :=
  ["### WooCommerce (Ecommerce)",
   "- Store: " ++ m.store_url ++ " | Currency: " ++ m.currency,
   "── 30-Day Window ──",
   "- Revenue: " ++ m.currency ++ " " ++ ratLocale2 m.total_revenue_30d,
   "- Orders: " ++ ratLocale m.total_orders_30d ++ " | AOV: " ++ m.currency ++ " " ++
     toFixedStr 2 m.aov_30d,
   "- New customers: " ++ ratLocale m.new_customers_30d ++ " | Refunds: " ++
     ratLocale m.refund_count_30d,
   "── 12-Month Window ──",
   "- Revenue: " ++ m.currency ++ " " ++ ratLocale2 m.total_revenue_12m,
   "- Orders: " ++ ratLocale m.total_orders_12m ++ " | AOV: " ++ m.currency ++ " " ++
     toFixedStr 2 m.aov_12m,
   "- New customers: " ++ ratLocale m.new_customers_12m ++ " | Refunds: " ++
     ratLocale m.refund_count_12m,
   "── All-Time ──",
   "- Total customers: " ++ ratLocale m.total_customers ++ " | Product catalog: " ++
     ratLocale m.product_count ++ " products",
   "- Repeat purchase rate (% of 12m buyers who purchased again): " ++
     pctStr 1 m.repeat_purchase_rate] ++
  (if 0 < m.top_products_12m.length then
    "- Top products by units sold (last 12 months):" ::
      m.top_products_12m.map (fun p =>
        "  - \"" ++ p.name ++ "\" — " ++ ratLocale p.quantity_sold ++ " units")
   else []) ++
  (if 0 < m.repeat_purchase_products.length then
    "- Most common products bought as a customer's 2nd purchase:" ::
      m.repeat_purchase_products.map (fun p =>
        "  - \"" ++ p.name ++ "\" — " ++ ratLocale p.quantity_sold ++ " repeat buyers")
   else []) ++
  [""]

/-- The Google Analytics section lines. -/
def gaSection (m : GoogleAnalyticsMetrics) : List String :=
  ["### Google Analytics 4 (Traffic)",
   "── 30-Day Window ──",
   "- Sessions: " ++ ratLocale m.monthly_sessions ++ " | Page views: " ++
     ratLocale m.page_views_30d,
   "- New users: " ++ ratLocale m.new_users_30d,
   "- Bounce rate: " ++ pctStr 1 m.bounce_rate ++ " | Engagement rate: " ++
     pctStr 1 m.engagement_rate,
   "- Average session duration: " ++ ratStr m.avg_session_duration_sec ++ "s",
   "── 12-Month Window ──",
   "- Sessions: " ++ ratLocale m.sessions_12m ++ " | New users: " ++
     ratLocale m.new_users_12m,
   "── Traffic Sources ──",
   "- Top traffic channel: " ++ m.top_channel,
   "- Channel breakdown: " ++ String.intercalate ", "
     (m.channels.map (fun c => c.channel ++ " (" ++ ratLocale c.sessions ++ ")"))] ++
  (if 0 < m.device_breakdown.length then
    ["- Device breakdown: " ++ String.intercalate ", "
      (m.device_breakdown.map (fun d => d.channel ++ " (" ++ ratLocale d.sessions ++ ")"))]
   else []) ++
  (if 0 < m.top_landing_pages.length then
    "- Top landing pages (by sessions, last 30d):" ::
      (m.top_landing_pages.take 5).map (fun p =>
        "  - " ++ p.page ++ " — " ++ ratLocale p.sessions ++ " sessions, bounce rate " ++
          pctStr 1 p.bounce_rate)
   else []) ++
  [""]

/-- The Google Ads section lines. -/
def gadsSection (m : GoogleAdsMetrics) : List String :=
  ["### Google Ads (Paid Traffic)",
   "── 30-Day Aggregate ──",
   "- Total ad spend: $" ++ ratLocale m.total_spend_30d,
   "- Clicks: " ++ ratLocale m.total_clicks_30d ++ " | Impressions: " ++
     ratLocale m.total_impressions_30d,
   "- Avg CTR: " ++ pctStr 2 m.avg_ctr ++ " | Avg CPC: $" ++ toFixedStr 2 m.avg_cpc,
   "- Conversions: " ++ ratLocale m.total_conversions_30d ++ " | Conversion rate: " ++
     pctStr 2 m.conversion_rate_30d,
   "- Cost per conversion: $" ++ toFixedStr 2 m.cost_per_conversion,
   "- Conversion value: $" ++ ratLocale m.total_conversion_value_30d ++ " | ROAS: " ++
     toFixedStr 2 m.roas_30d ++ "x"] ++
  (if 0 < m.top_campaigns.length then
    "- Top campaigns by spend:" ::
      m.top_campaigns.map (fun c =>
        let roasNote := if 0 < c.roas then " | ROAS " ++ toFixedStr 2 c.roas ++ "x" else ""
        let convNote := if 0 < c.conversions then " | " ++ ratStr c.conversions ++ " conv." else ""
        "  - \"" ++ c.name ++ "\" — $" ++ ratLocale c.spend ++ " spend, " ++
          ratLocale c.clicks ++ " clicks, CTR " ++ pctStr 2 c.ctr ++ convNote ++ roasNote)
   else []) ++
  [""]

/-- The closing note appended when at least one platform is present. -/
def summaryClosingNote : String :=
  "Note: The above are live metrics fetched directly from integrated platforms. " ++
  "These are authoritative data points — use them to grade the relevant funnel " ++
  "stages with HIGH confidence."

/-- buildPlatformMetricsSummary: a heading line, one section per cached
platform, and the closing note; exactly the empty string when the lines
array still holds only the heading. -/
def buildPlatformMetricsSummary (metrics : StoredPlatformMetrics) : String :=
  let lines : List String :=
    ["## Live Platform Metrics (real-time API data)\n"] ++
    (match metrics.mailchimp with
     | some m => mailchimpSection m
     | none => []) ++
    (match metrics.woocommerce with
     | some m => wooSection m
     | none => []) ++
    (match metrics.google_analytics with
     | some m => gaSection m
     | none => []) ++
    (match metrics.google_ads with
     | some m => gadsSection m
     | none => [])
  if lines.length = 1 then ""
  else String.intercalate "\n" (lines ++ [summaryClosingNote])

/-! Specification-side definitions for the click-to-open computation
policy (claim C7), written from the words of the spec rather than from
the source, to be compared with the source derivation. -/

/-- Modelled from the spec: the click-to-open style ratio is computed per
item (each campaign contributes its own guarded unique-clicks over
unique-opens ratio) and then averaged across the items in the window. -/
def specCtorAvgOfRates (rs : List MCRawReport) : ℚ :=
  if rs.length = 0 then 0 else (rs.map mcPerCtor).sum / rs.length

/-- Modelled from the spec: the alternative the spec rules out, a single
ratio of summed unique clicks over summed unique opens across the window. -/
def specCtorRateOfSums (rs : List MCRawReport) : ℚ :=
  let so := (rs.map (fun r => (mcSummaryOf r).unique_opens.getD 0)).sum
  let sc := (rs.map (fun r => (mcSummaryOf r).unique_clicks.getD 0)).sum
  if 0 < so then sc / so else 0

/-! Concrete fixtures used by the closed theorems below. -/

/-- The empty metrics document. -/
def emptyMetrics : StoredPlatformMetrics := ⟨none, none, none, none, none, none⟩

/-- Connector outcomes in which every connector rejects. -/
def runsAllFail : ConnectorRuns :=
  ⟨.error "Mailchimp API error 401: invalid key",
   .error "WooCommerce API error 401: unauthorized",
   .error "GA4 API error 403: forbidden",
   .error "Google Ads token refresh error: invalid_grant"⟩

/-- A cached Mailchimp record, as left behind by an earlier successful
fetch. -/
def mcCachedSample : MailchimpMetrics :=
  { platform := "mailchimp", fetched_at := "2026-01-01T00:00:00.000Z",
    list_name := "Main List", list_id := "abc123", list_size := 1000,
    open_rate := 42/100, click_rate := 5/100, click_to_open_rate := 12/100,
    unsubscribe_rate := 1/100, bounce_rate_hard := 1/200, soft_bounce_rate := 1/100,
    cleaned_count := 10, total_contacts := 1200, campaign_count_30d := 4,
    email_revenue_30d := 2500, new_subscribers_30d := 50, lost_subscribers_30d := 20,
    list_growth_rate := 3/100, avg_sub_rate_monthly := 40, list_rating := 4,
    automation_count := 0, automations := [], top_campaigns := [],
    growth_history_3m := [] }

/-- A credentials document with only Mailchimp connected. -/
def credsC1 : StoredPlatformCredentials := ⟨some "key-us21", none, none, none, none⟩

/-- A metrics document holding the cached Mailchimp record. -/
def metricsC1 : StoredPlatformMetrics :=
  ⟨some mcCachedSample, none, none, none, none, some "2026-01-01T00:00:00.000Z"⟩

/-- A credentials document whose only entry is a bigcommerce credential. -/
def credsOnlyBigcommerce : StoredPlatformCredentials := ⟨none, some "tok", none, none, none⟩

/-- C1.  The claim states that a failed single-platform sync leaves the
previously cached record in place.  The sync route instead refreshes
through the aggregator, which swallows the failure and returns a result
without the platform slot; the merge then copies that undefined slot over
the cached record and JSON serialization drops the key, so the persisted
document loses the cached record while the route reports success.  This
closed theorem evaluates the embedded route at such a failing input. -/
theorem sync_failed_fetch_clears_cached_slot :
    metricsC1.mailchimp = some mcCachedSample ∧
    (syncPlatform Platform.mailchimp credsC1 metricsC1 runsAllFail "t1" "t2").response
      = SyncResult.okSynced ∧
    (syncPlatform Platform.mailchimp credsC1 metricsC1 runsAllFail "t1" "t2").metricsDoc.mailchimp
      = none := by
  refine ⟨rfl, rfl, rfl⟩

/-- C2.  When the connection test run by the connect route fails, the
route returns before any write: the credentials document and the metrics
document are unchanged, and the 422 response carries the message of the
thrown connector error verbatim. -/
theorem connect_failure_writes_nothing_and_surfaces_vendor_message :
    ∀ (p : Platform) (credJson now msg : String) (runs : ConnectorRuns)
      (creds0 : StoredPlatformCredentials) (metrics0 : StoredPlatformMetrics),
      runFailsWith p runs msg →
      postPlatforms p credJson runs now creds0 metrics0
        = ⟨creds0, metrics0, ConnectResult.connectorError msg⟩ := by
  intro p credJson now msg runs creds0 metrics0 h
  cases p <;> simp only [runFailsWith] at h <;>
    first
      | exact h.elim
      | simp [postPlatforms, h]

/-- Witness for C2 at a concrete failing mailchimp connect request. -/
theorem connect_failure_witness :
    postPlatforms Platform.mailchimp "cred-json" runsAllFail "now" emptyCreds emptyMetrics
      = ⟨emptyCreds, emptyMetrics,
          ConnectResult.connectorError "Mailchimp API error 401: invalid key"⟩ :=
  connect_failure_writes_nothing_and_surfaces_vendor_message Platform.mailchimp
    "cred-json" "now" "Mailchimp API error 401: invalid key" runsAllFail
    emptyCreds emptyMetrics rfl

/-- C3 counterexample.  A stored-credentials map can hold a bigcommerce
credential; that platform is present, yet the aggregator pushes no task
for it, so the claim that one connector is invoked per present platform
fails at this input. -/
theorem fetchAll_bigcommerce_cred_not_invoked :
    credPresent credsOnlyBigcommerce Platform.bigcommerce = true ∧
    Platform.bigcommerce ∉ invokedPlatforms credsOnlyBigcommerce := by
  decide

/-- C3 as amended: for every stored-credentials map the aggregator never
rejects, fans out exactly one connector task per present platform among
the four dispatched platforms (a present bigcommerce credential is
ignored), returns a result whose slots are exactly the present platforms
whose connector fulfilled (holding that record), keeps the bigcommerce
slot absent, and stamps a single last_synced_at after all tasks settle. -/
theorem fetchAll_slots_timestamp_and_invocations :
    ∀ (creds : StoredPlatformCredentials) (runs : ConnectorRuns) (now : String),
      (fetchAllPlatformMetrics creds runs now).mailchimp
        = (if creds.mailchimp.isSome then runs.mailchimp.toOption else none) ∧
      (fetchAllPlatformMetrics creds runs now).woocommerce
        = (if creds.woocommerce.isSome then runs.woocommerce.toOption else none) ∧
      (fetchAllPlatformMetrics creds runs now).google_analytics
        = (if creds.google_analytics.isSome then runs.google_analytics.toOption else none) ∧
      (fetchAllPlatformMetrics creds runs now).google_ads
        = (if creds.google_ads.isSome then runs.google_ads.toOption else none) ∧
      (fetchAllPlatformMetrics creds runs now).bigcommerce = none ∧
      (fetchAllPlatformMetrics creds runs now).last_synced_at = some now ∧
      (∀ p : Platform, p ∈ invokedPlatforms creds ↔
        (credPresent creds p = true ∧ p ≠ Platform.bigcommerce)) := by
  intro creds runs now
  refine ⟨rfl, rfl, rfl, rfl, rfl, rfl, ?_⟩
  intro p
  rcases creds with ⟨mc, bc, wc, ga, gad⟩
  cases p <;>
    simp [invokedPlatforms, credPresent, StoredPlatformCredentials.get]

/-- C9.  When no platform has a cached record, the summarizer returns
exactly the empty string, not a heading-only string. -/
theorem summary_empty_when_no_cached_metrics :
    ∀ (d : StoredPlatformMetrics), d.mailchimp = none → d.bigcommerce = none →
      d.woocommerce = none → d.google_analytics = none → d.google_ads = none →
      buildPlatformMetricsSummary d = "" := by
  intro d h1 h2 h3 h4 h5
  simp [buildPlatformMetricsSummary, h1, h3, h4, h5]

/-- Witness for C9 at the empty metrics document. -/
theorem summary_empty_witness : buildPlatformMetricsSummary emptyMetrics = "" :=
  summary_empty_when_no_cached_metrics emptyMetrics rfl rfl rfl rfl rfl

/-- The pattern shared by the top-N selections: sort with a transitive
and total Boolean comparison, keep the first 10.  The result has at most
10 entries, is pairwise ordered by the comparison, and draws its entries
from the input. -/
theorem take10_mergeSort_spec {α : Type} (le : α → α → Bool)
    (htrans : ∀ a b c, le a b → le b c → le a c)
    (htotal : ∀ a b, le a b || le b a) (l : List α) :
    ((l.mergeSort le).take 10).length ≤ 10 ∧
    ((l.mergeSort le).take 10).Pairwise (fun a b => le a b = true) ∧
    ∀ a ∈ (l.mergeSort le).take 10, a ∈ l := by
  refine ⟨List.length_take_le 10 _, ?_, ?_⟩
  · have hs := List.sorted_mergeSort htrans htotal l
    exact hs.sublist (List.take_sublist 10 _)
  · intro a ha
    exact List.mem_mergeSort.mp (List.mem_of_mem_take ha)

/-- The Mailchimp outlier selection: at most 10 summaries, ordered
descending by open rate, every entry built from an input report whose
open rate reaches the threshold. -/
theorem mcTopCampaigns_spec (thr : ℚ) (reports : List MCRawReport) :
    (mcTopCampaigns thr reports).length ≤ 10 ∧
    (mcTopCampaigns thr reports).Pairwise (fun c d => d.open_rate ≤ c.open_rate) ∧
    ∀ c ∈ mcTopCampaigns thr reports,
      ∃ r ∈ reports, c = mcMkCampaign r ∧ thr ≤ c.open_rate := by
  obtain ⟨h1, h2, h3⟩ := take10_mergeSort_spec
    (fun a b => decide (mcOpenRateOf b ≤ mcOpenRateOf a))
    (fun a b c hab hbc => by
      simp only [decide_eq_true_eq] at *
      exact le_trans hbc hab)
    (fun a b => by
      simp only [Bool.or_eq_true, decide_eq_true_eq]
      exact le_total (mcOpenRateOf b) (mcOpenRateOf a))
    (reports.filter (fun r => decide (thr ≤ mcOpenRateOf r)))
  unfold mcTopCampaigns
  refine ⟨?_, ?_, ?_⟩
  · simp
  · exact List.pairwise_map.mpr (h2.imp (fun h => of_decide_eq_true h))
  · intro c hc
    rw [List.mem_map] at hc
    obtain ⟨r, hr, rfl⟩ := hc
    have hrf := h3 r hr
    rw [List.mem_filter] at hrf
    exact ⟨r, hrf.1, rfl, of_decide_eq_true hrf.2⟩

/-- The Google Ads campaign selection: at most 10 summaries, ordered
descending by rounded spend, every entry built from an entry of the
aggregated campaign map. -/
theorem gadsTopCampaigns_spec (rows : List GadsRow) :
    (gadsTopCampaigns rows).length ≤ 10 ∧
    (gadsTopCampaigns rows).Pairwise (fun c d => d.spend ≤ c.spend) ∧
    ∀ c ∈ gadsTopCampaigns rows, ∃ e ∈ gadsCampaignMap rows, c = gadsMkCampaign e := by
  obtain ⟨h1, h2, h3⟩ := take10_mergeSort_spec
    (fun (a b : String × GadsAgg) => decide (b.2.costMicros ≤ a.2.costMicros))
    (fun a b c hab hbc => by
      simp only [decide_eq_true_eq] at *
      exact le_trans hbc hab)
    (fun a b => by
      simp only [Bool.or_eq_true, decide_eq_true_eq]
      exact le_total b.2.costMicros a.2.costMicros)
    (gadsCampaignMap rows)
  unfold gadsTopCampaigns
  refine ⟨?_, ?_, ?_⟩
  · simp
  · refine List.pairwise_map.mpr (h2.imp ?_)
    intro a b h
    have hcost : b.2.costMicros ≤ a.2.costMicros := of_decide_eq_true h
    show round2 ((b.2.costMicros : ℚ) / 1000000) ≤ round2 ((a.2.costMicros : ℚ) / 1000000)
    exact round2_mono (div_le_div_of_nonneg_right (by exact_mod_cast hcost) (by norm_num))
  · intro c hc
    rw [List.mem_map] at hc
    obtain ⟨e, he, rfl⟩ := hc
    exact ⟨e, h3 e he, rfl⟩

theorem roundTo_zero (k : ℕ) : roundTo k 0 = 0 := by
  unfold roundTo
  rw [jsRound_eq]
  have h0 : (0 : ℚ) * 10 ^ k + 1/2 = 1/2 := by ring
  rw [h0]
  norm_num

theorem round2_zero : round2 0 = 0 := roundTo_zero 2

theorem round3_zero : round3 0 = 0 := roundTo_zero 3

theorem round4_zero : round4 0 = 0 := roundTo_zero 4

/-- An all-failed count endpoint response. -/
def hdrFail : HdrRes := ⟨false, none⟩

/-- An empty WooCommerce sales report. -/
def wcSalesEmpty : WCSalesRaw := ⟨none, none⟩

/-- A Mailchimp report carrying no summary at all. -/
def mcReportBare : MCRawReport := ⟨"r0", none, none, none, none⟩

/-- An empty Mailchimp list response. -/
def mcListDataEmpty : MCListData := ⟨none, none, none⟩

/-- C6.  Every guarded ratio in the connector derivations returns 0 when
its denominator is 0: the Google Ads aggregate CTR, CPC, cost per
conversion, ROAS and conversion rate; the per-campaign CTR, CPC and
ROAS; the WooCommerce 30-day and 12-month AOV and the repeat purchase
rate; and the Mailchimp per-campaign click-to-open ratio and the list
growth rate. -/
theorem zero_denominator_ratios_yield_zero :
    (∀ (rows : List GadsRow) (t c : String),
      ((gadsTotals rows).impressions = 0 → (gadsDerive rows t c).avg_ctr = 0) ∧
      ((gadsTotals rows).clicks = 0 →
        (gadsDerive rows t c).avg_cpc = 0 ∧ (gadsDerive rows t c).conversion_rate_30d = 0) ∧
      ((gadsTotals rows).conversions = 0 → (gadsDerive rows t c).cost_per_conversion = 0) ∧
      ((gadsTotals rows).costMicros = 0 → (gadsDerive rows t c).roas_30d = 0)) ∧
    (∀ e : String × GadsAgg,
      (e.2.impressions = 0 → (gadsMkCampaign e).ctr = 0) ∧
      (e.2.clicks = 0 → (gadsMkCampaign e).cpc = 0) ∧
      (e.2.costMicros = 0 → (gadsMkCampaign e).roas = 0)) ∧
    (∀ (dateMs : String → ℤ) (fetchedAt storeUrl : String) (sales30 : WCSalesRaw)
      (sales12m : Option WCSalesRaw) (cu n30 n12 pr r30 r12 : HdrRes)
      (curr : Option String) (tops : Option (List WCTopSeller))
      (o1 o2 : Option (List WCOrder)),
      (sales30.num_orders.getD 0 = 0 →
        (wooDerive dateMs fetchedAt storeUrl sales30 sales12m cu n30 n12 pr r30 r12
          curr tops o1 o2).aov_30d = 0) ∧
      ((wcSales12 sales12m).1 = 0 →
        (wooDerive dateMs fetchedAt storeUrl sales30 sales12m cu n30 n12 pr r30 r12
          curr tops o1 o2).aov_12m = 0) ∧
      (wcByCustomer (o1.getD [] ++ o2.getD []) = [] →
        (wooDerive dateMs fetchedAt storeUrl sales30 sales12m cu n30 n12 pr r30 r12
          curr tops o1 o2).repeat_purchase_rate = 0)) ∧
    (∀ r : MCRawReport, (mcSummaryOf r).unique_opens.getD 0 = 0 → mcPerCtor r = 0) ∧
    (∀ (nowMs : ℤ) (dateMs : String → ℤ) (fetchedAt listName0 listId : String)
      (ld : MCListData) (campOk : Bool) (rr : List MCRawReport)
      (gOk : Bool) (g : List MCGrowthEntry) (aOk : Bool) (au : List MCRawAutomation),
      (ld.stats.getD mcStatsEmpty).member_count.getD 0 = 0 →
        (mailchimpDerive nowMs dateMs fetchedAt listName0 listId ld campOk rr
          gOk g aOk au).list_growth_rate = 0) := by
  refine ⟨?_, ?_, ?_, ?_, ?_⟩
  · intro rows t c
    refine ⟨?_, ?_, ?_, ?_⟩
    · intro h
      simp only [gadsDerive]
      rw [h]
      simp [round4_zero]
    · intro h
      simp only [gadsDerive]
      rw [h]
      constructor
      · simp [round2_zero]
      · simp [round4_zero]
    · intro h
      simp only [gadsDerive]
      rw [h]
      simp [round2_zero]
    · intro h
      simp only [gadsDerive]
      rw [h]
      norm_num [round2_zero]
  · intro e
    refine ⟨?_, ?_, ?_⟩
    · intro h
      simp only [gadsMkCampaign]
      rw [h]
      simp [round4_zero]
    · intro h
      simp only [gadsMkCampaign]
      rw [h]
      simp [round2_zero]
    · intro h
      simp only [gadsMkCampaign]
      rw [h]
      norm_num [round2_zero]
  · intro dateMs fetchedAt storeUrl sales30 sales12m cu n30 n12 pr r30 r12 curr tops o1 o2
    refine ⟨?_, ?_, ?_⟩
    · intro h
      simp only [wooDerive, parseSalesReport]
      rw [h]
      simp [round2_zero]
    · intro h
      simp only [wooDerive]
      rcases hs : sales12m with _ | raw
      · simp [wcSales12, round2_zero]
      · rw [hs] at h
        simp only [wcSales12, parseSalesReport] at h ⊢
        rw [h]
        simp [round2_zero]
    · intro h
      simp only [wooDerive]
      rw [h]
      simp [round3_zero]
  · intro r h
    simp [mcPerCtor, h]
  · intro nowMs dateMs fetchedAt listName0 listId ld campOk rr gOk g aOk au h
    simp only [mailchimpDerive]
    rw [h]
    simp

/-- Witness for C6: every zero-denominator branch evaluated at a concrete
zero-activity fixture. -/
theorem zero_denominator_witness :
    (gadsDerive [] "t" "c").avg_ctr = 0 ∧
    (gadsDerive [] "t" "c").avg_cpc = 0 ∧
    (gadsDerive [] "t" "c").conversion_rate_30d = 0 ∧
    (gadsDerive [] "t" "c").cost_per_conversion = 0 ∧
    (gadsDerive [] "t" "c").roas_30d = 0 ∧
    (gadsMkCampaign ("A", ⟨0, 0, 0, 0, 0⟩)).ctr = 0 ∧
    (gadsMkCampaign ("A", ⟨0, 0, 0, 0, 0⟩)).cpc = 0 ∧
    (gadsMkCampaign ("A", ⟨0, 0, 0, 0, 0⟩)).roas = 0 ∧
    (wooDerive (fun _ => 0) "t" "u" wcSalesEmpty none hdrFail hdrFail hdrFail hdrFail
      hdrFail hdrFail none none none none).aov_30d = 0 ∧
    (wooDerive (fun _ => 0) "t" "u" wcSalesEmpty none hdrFail hdrFail hdrFail hdrFail
      hdrFail hdrFail none none none none).aov_12m = 0 ∧
    (wooDerive (fun _ => 0) "t" "u" wcSalesEmpty none hdrFail hdrFail hdrFail hdrFail
      hdrFail hdrFail none none none none).repeat_purchase_rate = 0 ∧
    mcPerCtor mcReportBare = 0 ∧
    (mailchimpDerive 0 (fun _ => 0) "t" "" "id" mcListDataEmpty true [] true [] true
      []).list_growth_rate = 0 := by
  have hg := (zero_denominator_ratios_yield_zero.1 [] "t" "c")
  have he := (zero_denominator_ratios_yield_zero.2.1 ("A", ⟨0, 0, 0, 0, 0⟩))
  have hw := (zero_denominator_ratios_yield_zero.2.2.1 (fun _ => 0) "t" "u" wcSalesEmpty
    none hdrFail hdrFail hdrFail hdrFail hdrFail hdrFail none none none none)
  exact ⟨hg.1 rfl, (hg.2.1 rfl).1, (hg.2.1 rfl).2, hg.2.2.1 rfl, hg.2.2.2 rfl,
    he.1 rfl, he.2.1 rfl, he.2.2 rfl,
    hw.1 rfl, hw.2.1 rfl, hw.2.2 rfl,
    zero_denominator_ratios_yield_zero.2.2.2.1 mcReportBare rfl,
    zero_denominator_ratios_yield_zero.2.2.2.2 0 (fun _ => 0) "t" "" "id"
      mcListDataEmpty true [] true [] true [] rfl⟩

/-- A Mailchimp in-window report fixture with open rate 1/10 and an
email-attributed revenue of 0.001. -/
def mcReportC5a : MCRawReport :=
  { id := "m1", subject_line := some "M1", send_time := some "2026-10-01T00:00:00Z",
    report_summary := some
      { open_rate := some (1/10), click_rate := some (1/100), opens := none,
        clicks := none, unique_opens := some 10, unique_clicks := some 1 },
    ecommerce_total_revenue := some (1/1000) }

/-- A Mailchimp in-window report fixture with open rate 2/10. -/
def mcReportC5b : MCRawReport :=
  { id := "m2", subject_line := some "M2", send_time := some "2026-10-02T00:00:00Z",
    report_summary := some
      { open_rate := some (2/10), click_rate := some (1/100), opens := none,
        clicks := none, unique_opens := some 10, unique_clicks := some 1 },
    ecommerce_total_revenue := none }

/-- A Mailchimp in-window report fixture with open rate 31/100. -/
def mcReportC5c : MCRawReport :=
  { id := "m3", subject_line := some "M3", send_time := some "2026-10-03T00:00:00Z",
    report_summary := some
      { open_rate := some (31/100), click_rate := some (1/100), opens := none,
        clicks := none, unique_opens := some 10, unique_clicks := some 1 },
    ecommerce_total_revenue := none }

/-- The three-campaign fixture whose windowed average open rate is
61/300, a value with no finite decimal expansion. -/
def mcReportsC5 : List MCRawReport := [mcReportC5a, mcReportC5b, mcReportC5c]

unseal Rat.mul Rat.add Rat.sub Rat.inv in
/-- C5 counterexample.  The Mailchimp connector does not round: at this
fixture the persisted open_rate is 61/300, which carries more than 4 (and
more than 2) decimal digits, and the persisted email revenue is 1/1000,
which carries more than 2 decimal digits. -/
theorem rounding_claim_counterexample_mailchimp :
    (mailchimpDerive 0 (fun _ => 0) "t" "" "id" mcListDataEmpty true mcReportsC5 true []
      true []).open_rate = 61/300 ∧
    ¬ dpLE 4 ((mailchimpDerive 0 (fun _ => 0) "t" "" "id" mcListDataEmpty true mcReportsC5
      true [] true []).open_rate) ∧
    ¬ dpLE 2 ((mailchimpDerive 0 (fun _ => 0) "t" "" "id" mcListDataEmpty true mcReportsC5
      true [] true []).open_rate) ∧
    (mailchimpDerive 0 (fun _ => 0) "t" "" "id" mcListDataEmpty true mcReportsC5 true []
      true []).email_revenue_30d = 1/1000 ∧
    ¬ dpLE 2 ((mailchimpDerive 0 (fun _ => 0) "t" "" "id" mcListDataEmpty true mcReportsC5
      true [] true []).email_revenue_30d) := by
  decide

/-- C5 as amended: the rounding invariant holds for the connectors that
round — WooCommerce, Google Ads and Google Analytics: currency amounts
carry at most 2 decimal digits and percentage-basis rates at most 4 —
while the Mailchimp connector emits its averaged rates and summed revenue
unrounded. -/
theorem rounding_amended_rounded_connectors :
    (∀ (dateMs : String → ℤ) (fetchedAt storeUrl : String) (sales30 : WCSalesRaw)
      (sales12m : Option WCSalesRaw) (cu n30 n12 pr r30 r12 : HdrRes)
      (curr : Option String) (tops : Option (List WCTopSeller))
      (o1 o2 : Option (List WCOrder)),
      dpLE 2 (wooDerive dateMs fetchedAt storeUrl sales30 sales12m cu n30 n12 pr r30 r12
        curr tops o1 o2).total_revenue_30d ∧
      dpLE 2 (wooDerive dateMs fetchedAt storeUrl sales30 sales12m cu n30 n12 pr r30 r12
        curr tops o1 o2).aov_30d ∧
      dpLE 2 (wooDerive dateMs fetchedAt storeUrl sales30 sales12m cu n30 n12 pr r30 r12
        curr tops o1 o2).total_revenue_12m ∧
      dpLE 2 (wooDerive dateMs fetchedAt storeUrl sales30 sales12m cu n30 n12 pr r30 r12
        curr tops o1 o2).aov_12m ∧
      dpLE 4 (wooDerive dateMs fetchedAt storeUrl sales30 sales12m cu n30 n12 pr r30 r12
        curr tops o1 o2).repeat_purchase_rate) ∧
    (∀ (rows : List GadsRow) (t c : String),
      dpLE 2 (gadsDerive rows t c).total_spend_30d ∧
      dpLE 4 (gadsDerive rows t c).avg_ctr ∧
      dpLE 2 (gadsDerive rows t c).avg_cpc ∧
      dpLE 2 (gadsDerive rows t c).total_conversions_30d ∧
      dpLE 2 (gadsDerive rows t c).cost_per_conversion ∧
      dpLE 2 (gadsDerive rows t c).total_conversion_value_30d ∧
      dpLE 2 (gadsDerive rows t c).roas_30d ∧
      dpLE 4 (gadsDerive rows t c).conversion_rate_30d) ∧
    (∀ e : String × GadsAgg,
      dpLE 2 (gadsMkCampaign e).spend ∧
      dpLE 2 (gadsMkCampaign e).conversions ∧
      dpLE 2 (gadsMkCampaign e).conversion_value ∧
      dpLE 2 (gadsMkCampaign e).roas ∧
      dpLE 4 (gadsMkCampaign e).ctr ∧
      dpLE 2 (gadsMkCampaign e).cpc) ∧
    (∀ (fetchedAt pid : String) (summaryRows : List GA4Row)
      (channelRows deviceRows landingRows annualRows : Option (List GA4Row)),
      dpLE 4 (gaDerive fetchedAt pid summaryRows channelRows deviceRows landingRows
        annualRows).bounce_rate ∧
      dpLE 4 (gaDerive fetchedAt pid summaryRows channelRows deviceRows landingRows
        annualRows).engagement_rate) ∧
    (∀ r : GA4Row, dpLE 4 (gaMkLanding r).bounce_rate) := by
  have h34 : (3 : ℕ) ≤ 4 := by norm_num
  refine ⟨?_, ?_, ?_, ?_, ?_⟩
  · intro dateMs fetchedAt storeUrl sales30 sales12m cu n30 n12 pr r30 r12 curr tops o1 o2
    exact ⟨dpLE_roundTo 2 _, dpLE_roundTo 2 _, dpLE_roundTo 2 _, dpLE_roundTo 2 _,
      dpLE_mono h34 (dpLE_roundTo 3 _)⟩
  · intro rows t c
    exact ⟨dpLE_roundTo 2 _, dpLE_roundTo 4 _, dpLE_roundTo 2 _, dpLE_roundTo 2 _,
      dpLE_roundTo 2 _, dpLE_roundTo 2 _, dpLE_roundTo 2 _, dpLE_roundTo 4 _⟩
  · intro e
    exact ⟨dpLE_roundTo 2 _, dpLE_roundTo 2 _, dpLE_roundTo 2 _, dpLE_roundTo 2 _,
      dpLE_roundTo 4 _, dpLE_roundTo 2 _⟩
  · intro fetchedAt pid summaryRows channelRows deviceRows landingRows annualRows
    exact ⟨dpLE_mono h34 (dpLE_roundTo 3 _), dpLE_mono h34 (dpLE_roundTo 3 _)⟩
  · intro r
    exact dpLE_mono h34 (dpLE_roundTo 3 _)

/-- A Google Ads row fixture: campaign A with spend 10 (10,000,000
micros). -/
def gadsRowCxA : GadsRow :=
  { campaign_name := some "A", impressions := some 1000, clicks := some 10,
    cost_micros := some 10000000, conversions := some 0, conversions_value := some 0 }

/-- A Google Ads row fixture: campaign B with spend 0. -/
def gadsRowCxB : GadsRow :=
  { campaign_name := some "B", impressions := some 1000, clicks := some 10,
    cost_micros := some 0, conversions := some 0, conversions_value := some 0 }

/-- The two-campaign Google Ads fixture. -/
def gadsRowsCx : List GadsRow := [gadsRowCxA, gadsRowCxB]

/-- A top_sellers response carrying 12 items. -/
def wcSellersCx : List WCTopSeller :=
  List.replicate 12 ⟨some 7, none, some "Widget", none, some 3⟩

/-- A Mailchimp report with open rate 1/2 (used twice to build a tie). -/
def mcReportTieA : MCRawReport :=
  { id := "a1", subject_line := some "Tie A", send_time := none,
    report_summary := some
      { open_rate := some (1/2), click_rate := some (1/10), opens := none,
        clicks := none, unique_opens := some 10, unique_clicks := some 2 },
    ecommerce_total_revenue := none }

/-- A second Mailchimp report with the same open rate 1/2. -/
def mcReportTieB : MCRawReport :=
  { id := "a2", subject_line := some "Tie B", send_time := none,
    report_summary := some
      { open_rate := some (1/2), click_rate := some (1/10), opens := none,
        clicks := none, unique_opens := some 20, unique_clicks := some 4 },
    ecommerce_total_revenue := none }

/-- The tied Mailchimp fixture. -/
def mcReportsTie : List MCRawReport := [mcReportTieA, mcReportTieB]

unseal Rat.mul Rat.add Rat.sub Rat.inv List.merge List.mergeSort in
/-- C4 counterexample.  At these concrete inputs the claim fails three
times over: the Google Ads top list keeps a campaign whose spend 0 is
below 1.2 times the window-average spend 5 (the list is simply the top
10 by spend, with no threshold filter); the WooCommerce top-products
list has 12 entries, beyond the claimed cap of 10 (the source keeps up
to 15 vendor items); and a Mailchimp tie yields open rates [1/2, 1/2],
which is not strictly descending. -/
theorem topn_claim_counterexample :
    ((gadsDerive gadsRowsCx "t" "c").top_campaigns.map (fun cc => cc.spend)) = [10, 0] ∧
    (12/10 : ℚ) * ((10 + 0) / 2) = 6 ∧
    ¬ (∀ cc ∈ (gadsDerive gadsRowsCx "t" "c").top_campaigns, 6 ≤ cc.spend) ∧
    10 < (wooDerive (fun _ => 0) "t" "u" wcSalesEmpty none hdrFail hdrFail hdrFail hdrFail
      hdrFail hdrFail none (some wcSellersCx) none none).top_products_12m.length ∧
    ((mailchimpDerive 0 (fun _ => 0) "t" "" "id" mcListDataEmpty true mcReportsTie true []
      true []).top_campaigns.map (fun c => c.open_rate)) = [1/2, 1/2] ∧
    ¬ ((mailchimpDerive 0 (fun _ => 0) "t" "" "id" mcListDataEmpty true mcReportsTie true []
      true []).top_campaigns.Pairwise (fun c d => d.open_rate < c.open_rate)) := by
  decide

/-- C4 as amended: the Mailchimp top-campaign list is at most 10 entries,
sorted descending (ties allowed) by open rate, and every entry comes from
a fetched report whose open rate is at least 1.2 times the windowed
average open rate; the Google Ads top-campaign list is at most 10
entries, sorted descending by spend, every entry built from the
aggregated per-campaign map, with no threshold filter; the WooCommerce
top-product list is the first 15 vendor items in vendor order, with no
local sort or filter. -/
theorem topn_selection_amended :
    (∀ (nowMs : ℤ) (dateMs : String → ℤ) (fetchedAt listName0 listId : String)
      (ld : MCListData) (campOk : Bool) (rr : List MCRawReport)
      (gOk : Bool) (g : List MCGrowthEntry) (aOk : Bool) (au : List MCRawAutomation),
      (mailchimpDerive nowMs dateMs fetchedAt listName0 listId ld campOk rr
        gOk g aOk au).top_campaigns.length ≤ 10 ∧
      (mailchimpDerive nowMs dateMs fetchedAt listName0 listId ld campOk rr
        gOk g aOk au).top_campaigns.Pairwise (fun c d => d.open_rate ≤ c.open_rate) ∧
      (∀ c ∈ (mailchimpDerive nowMs dateMs fetchedAt listName0 listId ld campOk rr
          gOk g aOk au).top_campaigns,
        ∃ r ∈ mcReports campOk rr, c = mcMkCampaign r ∧
          (mailchimpDerive nowMs dateMs fetchedAt listName0 listId ld campOk rr
            gOk g aOk au).open_rate * (12/10) ≤ c.open_rate)) ∧
    (∀ (rows : List GadsRow) (t c : String),
      (gadsDerive rows t c).top_campaigns.length ≤ 10 ∧
      (gadsDerive rows t c).top_campaigns.Pairwise (fun a b => b.spend ≤ a.spend) ∧
      (∀ cc ∈ (gadsDerive rows t c).top_campaigns,
        ∃ e ∈ gadsCampaignMap rows, cc = gadsMkCampaign e)) ∧
    (∀ (dateMs : String → ℤ) (fetchedAt storeUrl : String) (sales30 : WCSalesRaw)
      (sales12m : Option WCSalesRaw) (cu n30 n12 pr r30 r12 : HdrRes)
      (curr : Option String) (tops : Option (List WCTopSeller))
      (o1 o2 : Option (List WCOrder)),
      (wooDerive dateMs fetchedAt storeUrl sales30 sales12m cu n30 n12 pr r30 r12
        curr tops o1 o2).top_products_12m = ((tops.getD []).take 15).map wcMkProd ∧
      (wooDerive dateMs fetchedAt storeUrl sales30 sales12m cu n30 n12 pr r30 r12
        curr tops o1 o2).top_products_12m.length ≤ 15) := by
  refine ⟨?_, ?_, ?_⟩
  · intro nowMs dateMs fetchedAt listName0 listId ld campOk rr gOk g aOk au
    have e : (mailchimpDerive nowMs dateMs fetchedAt listName0 listId ld campOk rr
        gOk g aOk au).top_campaigns
        = mcTopCampaigns
            ((mailchimpDerive nowMs dateMs fetchedAt listName0 listId ld campOk rr
              gOk g aOk au).open_rate * (12/10))
            (mcReports campOk rr) := rfl
    rw [e]
    exact mcTopCampaigns_spec _ _
  · intro rows t c
    have e : (gadsDerive rows t c).top_campaigns = gadsTopCampaigns rows := rfl
    rw [e]
    exact gadsTopCampaigns_spec rows
  · intro dateMs fetchedAt storeUrl sales30 sales12m cu n30 n12 pr r30 r12 curr tops o1 o2
    refine ⟨rfl, ?_⟩
    calc (((tops.getD []).take 15).map wcMkProd).length
        = ((tops.getD []).take 15).length := List.length_map _ _
      _ ≤ 15 := List.length_take_le 15 _

unseal Rat.mul Rat.add Rat.sub Rat.inv List.merge List.mergeSort in
/-- Witness for C4 as amended, instantiating the membership clause of the
Google Ads part at a concrete selected campaign. -/
theorem topn_selection_witness :
    (gadsDerive gadsRowsCx "t" "c").top_campaigns.length ≤ 10 ∧
    ∃ e ∈ gadsCampaignMap gadsRowsCx,
      gadsMkCampaign ("A", ⟨1000, 10, 10000000, 0, 0⟩) = gadsMkCampaign e := by
  have h := topn_selection_amended.2.1 gadsRowsCx "t" "c"
  exact ⟨h.1, h.2.2 (gadsMkCampaign ("A", ⟨1000, 10, 10000000, 0, 0⟩)) (by decide)⟩

/-- A campaign report fixture: 10 unique opens, 1 unique click. -/
def ctorReportA : MCRawReport :=
  { id := "c1", subject_line := some "Campaign A", send_time := some "2026-09-20T00:00:00Z",
    report_summary := some
      { open_rate := some (3/10), click_rate := some (1/100), opens := some 12,
        clicks := some 1, unique_opens := some 10, unique_clicks := some 1 },
    ecommerce_total_revenue := none }

/-- A campaign report fixture: 100 unique opens, 50 unique clicks. -/
def ctorReportB : MCRawReport :=
  { id := "c2", subject_line := some "Campaign B", send_time := some "2026-09-25T00:00:00Z",
    report_summary := some
      { open_rate := some (4/10), click_rate := some (5/100), opens := some 120,
        clicks := some 60, unique_opens := some 100, unique_clicks := some 50 },
    ecommerce_total_revenue := none }

/-- The two-campaign fixture on which average-of-rates and rate-of-sums
disagree. -/
def ctorExReports : List MCRawReport := [ctorReportA, ctorReportB]

/-- C7.  The Mailchimp click-to-open rate equals the average over the
30-day window of the guarded per-campaign unique-clicks over unique-opens
ratios, and that policy differs from the single ratio of summed clicks
over summed opens: on the fixture the average of rates is 3/10 while the
rate of sums is 51/110. -/
theorem ctor_average_of_rates :
    (∀ (nowMs : ℤ) (dateMs : String → ℤ) (fetchedAt listName0 listId : String)
      (ld : MCListData) (campOk : Bool) (rr : List MCRawReport)
      (gOk : Bool) (g : List MCGrowthEntry) (aOk : Bool) (au : List MCRawAutomation),
      (mailchimpDerive nowMs dateMs fetchedAt listName0 listId ld campOk rr
        gOk g aOk au).click_to_open_rate
        = specCtorAvgOfRates (mcWindow nowMs dateMs campOk rr)) ∧
    specCtorAvgOfRates ctorExReports = 3/10 ∧
    specCtorRateOfSums ctorExReports = 51/110 ∧
    specCtorAvgOfRates ctorExReports ≠ specCtorRateOfSums ctorExReports := by
  refine ⟨?_, ?_, ?_, ?_⟩
  · intro nowMs dateMs fetchedAt listName0 listId ld campOk rr gOk g aOk au
    simp only [mailchimpDerive, specCtorAvgOfRates]
    rcases Nat.eq_zero_or_pos (mcWindow nowMs dateMs campOk rr).length with h | h
    · simp [h]
    · simp [h, Nat.pos_iff_ne_zero.mp h]
  · norm_num [specCtorAvgOfRates, ctorExReports, ctorReportA, ctorReportB, mcPerCtor,
      mcSummaryOf]
  · norm_num [specCtorRateOfSums, ctorExReports, ctorReportA, ctorReportB, mcSummaryOf]
  · norm_num [specCtorAvgOfRates, specCtorRateOfSums, ctorExReports, ctorReportA,
      ctorReportB, mcPerCtor, mcSummaryOf]

/-- The list stats fixture with a vendor-level average open rate of 0.42. -/
def mcStatsC8 : MCListStats :=
  { member_count := some 1000, avg_open_rate := some (42/100), avg_click_rate := some (7/100),
    unsubscribe_rate := none, hard_bounce_rate := none, soft_bounce_rate := none,
    cleaned_count := none, total_contacts := none, avg_sub_rate := none }

/-- The list response fixture carrying mcStatsC8. -/
def mcListDataC8 : MCListData := ⟨some "Main List", some mcStatsC8, some 4⟩

/-- C8.  With zero campaigns in the trailing 30-day window the Mailchimp
open rate and click rate fall back to the vendor-level list statistics;
with at least one campaign in the window they are the windowed averages. -/
theorem open_rate_fallback_to_list_stat :
    ∀ (nowMs : ℤ) (dateMs : String → ℤ) (fetchedAt listName0 listId : String)
      (ld : MCListData) (campOk : Bool) (rr : List MCRawReport)
      (gOk : Bool) (g : List MCGrowthEntry) (aOk : Bool) (au : List MCRawAutomation),
      (mcWindow nowMs dateMs campOk rr = [] →
        (mailchimpDerive nowMs dateMs fetchedAt listName0 listId ld campOk rr
          gOk g aOk au).open_rate = (ld.stats.getD mcStatsEmpty).avg_open_rate.getD 0 ∧
        (mailchimpDerive nowMs dateMs fetchedAt listName0 listId ld campOk rr
          gOk g aOk au).click_rate = (ld.stats.getD mcStatsEmpty).avg_click_rate.getD 0) ∧
      (mcWindow nowMs dateMs campOk rr ≠ [] →
        (mailchimpDerive nowMs dateMs fetchedAt listName0 listId ld campOk rr
          gOk g aOk au).open_rate
          = ((mcWindow nowMs dateMs campOk rr).map
              (fun r => (mcSummaryOf r).open_rate.getD 0)).sum
            / ((mcWindow nowMs dateMs campOk rr).length : ℚ) ∧
        (mailchimpDerive nowMs dateMs fetchedAt listName0 listId ld campOk rr
          gOk g aOk au).click_rate
          = ((mcWindow nowMs dateMs campOk rr).map
              (fun r => (mcSummaryOf r).click_rate.getD 0)).sum
            / ((mcWindow nowMs dateMs campOk rr).length : ℚ)) := by
  intro nowMs dateMs fetchedAt listName0 listId ld campOk rr gOk g aOk au
  constructor
  · intro h
    simp only [mailchimpDerive]
    rw [h]
    simp
  · intro h
    have hl : 0 < (mcWindow nowMs dateMs campOk rr).length := List.length_pos.mpr h
    simp only [mailchimpDerive]
    rw [if_pos hl, if_pos hl]
    exact ⟨rfl, rfl⟩

/-- Witness for C8: an account with no campaigns in the window and a
vendor-level avg_open_rate of 0.42 yields open_rate 0.42. -/
theorem open_rate_fallback_witness :
    mcWindow 0 (fun _ => 0) true [] = [] ∧
    (mailchimpDerive 0 (fun _ => 0) "t" "" "list1" mcListDataC8 true [] true [] true
      []).open_rate = 42/100 := by
  have h := (open_rate_fallback_to_list_stat 0 (fun _ => 0) "t" "" "list1" mcListDataC8
    true [] true [] true []).1 rfl
  exact ⟨rfl, h.1.trans rfl⟩

/-- C10.  The summarizer never reads the bigcommerce slot: its output is
unchanged under any change of that slot, and a document whose only cached
record is a bigcommerce record summarizes to the empty string. -/
theorem summary_independent_of_bigcommerce :
    (∀ (d : StoredPlatformMetrics) (b b' : Option BigCommerceMetrics),
      buildPlatformMetricsSummary { d with bigcommerce := b }
        = buildPlatformMetricsSummary { d with bigcommerce := b' }) ∧
    (∀ (b : Option BigCommerceMetrics) (ts : Option String),
      buildPlatformMetricsSummary ⟨none, b, none, none, none, ts⟩ = "") := by
  exact ⟨fun d b b' => rfl, fun b ts => rfl⟩

end FCC
